import Mathlib

/-!
Verification of the key-data-extraction demo script
(src/001-key-data-extraction.py).

The script reads the GROQ_API_KEY credential from the environment,
constructs a chat-model client, declares two pydantic schemas (a
three-field `Person`, then a redefined four-field `Person` and a `Data`
wrapper holding a required list of people), builds one fixed two-message
prompt template, and invokes `prompt | llm.with_structured_output(schema)`
three times, printing each parsed response.

The embedding below models: the declared schemas as lists of field
descriptors; pydantic-style validation of a JSON-like backend payload
against those schemas (unknown keys ignored, missing optional fields
defaulting to None, type mismatches failing); the prompt template and its
formatting; and the top-level script as a list of steps interpreted
against an environment and a backend, producing the list of observable
effects (environment reads, client construction, network calls, prints)
or halting with an error.
-/

namespace KeyData

/-- JSON-like values, as delivered by the structured-output backend. -/
inductive JValue where
  | jnull
  | jbool (b : Bool)
  | jnum (n : Int)
  | jstr (s : String)
  | jarr (xs : List JValue)
  | jobj (kvs : List (String × JValue))
deriving Repr

/-- Declared field types.  Every field of the `Person` schemas in the
source is `Optional[str]`, i.e. text. -/
inductive FType where
  | text
deriving Repr, DecidableEq

/-- One declared schema field: its name, its pydantic `description`,
whether it is optional (has `default=None`), and its type. -/
structure FieldDecl where
  name : String
  description : String
  optional : Bool
  ftype : FType
deriving Repr, DecidableEq

/-- The first `Person` schema (lines 18-35 of the source): three optional
text fields `name`, `lastname`, `country`, each with `default=None`. -/
def personFieldsV1 : List FieldDecl :=
  [ ⟨"name", "The name of the person", true, FType.text⟩,
    ⟨"lastname", "The lastname of the person if known", true, FType.text⟩,
    ⟨"country", "The country of the person if known", true, FType.text⟩ ]

/-- The redefined `Person` schema (lines 81-101 of the source): the three
fields of the first version plus an optional text field named `Email`
(capital E), each with `default=None`. -/
def personFieldsV2 : List FieldDecl :=
  [ ⟨"name", "The name of the person", true, FType.text⟩,
    ⟨"lastname", "The lastname of the person if known", true, FType.text⟩,
    ⟨"country", "The country of the person if known", true, FType.text⟩,
    ⟨"Email", "The Email of the person if known", true, FType.text⟩ ]

/-- A structured-output target: either a single `Person` record with the
given fields, or the `Data` wrapper `\x7b people: List[Person] \x7d`
where `people` has no default and is therefore required. -/
inductive Schema where
  | person (fields : List FieldDecl)
  | data (personFields : List FieldDecl)
deriving Repr, DecidableEq

/-- First value bound to a key in a JSON object payload, if any. -/
def lookupField (kvs : List (String × JValue)) (k : String) : Option JValue :=
  (kvs.find? (fun p => p.1 = k)).map Prod.snd

/-- Pydantic validation of one `Optional[str]` field against a payload:
a missing key defaults to None, an explicit null is None, a string is
kept, and any other value is a type mismatch that fails validation. -/
def validateOptionalText (kvs : List (String × JValue)) (k : String) :
    Except String (Option String) :=
  match lookupField kvs k with
  | none => Except.ok none
  | some JValue.jnull => Except.ok none
  | some (JValue.jstr s) => Except.ok (some s)
  | some _ => Except.error ("Input should be a valid string: " ++ k)

/-- Pydantic validation of an object payload against a list of declared
optional text fields.  The result is the list of declared fields with
their validated values: keys of the payload not declared in the schema
are dropped, and any declared field whose value fails coercion fails the
whole validation. -/
def validateRecord : List FieldDecl → List (String × JValue) →
    Except String (List (String × Option String))
  | [], _ => Except.ok []
  | f :: rest, kvs =>
    match validateOptionalText kvs f.name with
    | Except.error e => Except.error e
    | Except.ok v =>
      match validateRecord rest kvs with
      | Except.error e => Except.error e
      | Except.ok r => Except.ok ((f.name, v) :: r)

/-- A parsed structured-output response: one record, or the list of
records carried by the `people` field of the `Data` wrapper. -/
inductive Parsed where
  | one (r : List (String × Option String))
  | many (rs : List (List (String × Option String)))
deriving Repr, DecidableEq

/-- Validation of every element of the `people` array: each element must
be an object and must validate as a `Person` record. -/
def validatePeople (fields : List FieldDecl) : List JValue →
    Except String (List (List (String × Option String)))
  | [] => Except.ok []
  | v :: rest =>
    match v with
    | JValue.jobj kvs =>
      match validateRecord fields kvs with
      | Except.error e => Except.error e
      | Except.ok r =>
        match validatePeople fields rest with
        | Except.error e => Except.error e
        | Except.ok rs => Except.ok (r :: rs)
    | _ => Except.error "people item: Input should be a valid dictionary"

/-- Validation of a raw backend payload against a structured-output
schema.  For `Person`, the payload must be an object and each declared
field validates as optional text.  For `Data`, the payload must be an
object whose `people` key is present (it is a required field with no
default) and holds an array of valid `Person` objects. -/
def validateSchema : Schema → JValue → Except String Parsed
  | Schema.person fields, JValue.jobj kvs =>
    match validateRecord fields kvs with
    | Except.error e => Except.error e
    | Except.ok r => Except.ok (Parsed.one r)
  | Schema.person _, _ => Except.error "Input should be a valid dictionary"
  | Schema.data fields, JValue.jobj kvs =>
    match lookupField kvs "people" with
    | none => Except.error "Field required: people"
    | some (JValue.jarr xs) =>
      match validatePeople fields xs with
      | Except.error e => Except.error e
      | Except.ok rs => Except.ok (Parsed.many rs)
    | some _ => Except.error "Input should be a valid list: people"
  | Schema.data _, _ => Except.error "Input should be a valid dictionary"

/-- A message template: either literal text or the `\x7btext\x7d`
placeholder that `ChatPromptTemplate` substitutes with the input. -/
inductive Template where
  | lit (s : String)
  | textVar
deriving Repr, DecidableEq

/-- One message of the prompt template: a role and a content template. -/
structure Message where
  role : String
  content : Template
deriving Repr, DecidableEq

/-- The fixed system instruction of the prompt (lines 51-54). -/
def systemText : String :=
  "You are an expert extraction algorithm. " ++
  "Only extract relevant information from the text. " ++
  "If you do not know the value of an attribute asked to extract, " ++
  "return null for the attribute\x27s value."

/-- The prompt template built by `ChatPromptTemplate.from_messages`
(lines 47-58): a fixed system message and a human message holding the
`\x7btext\x7d` placeholder. -/
def prompt : List Message :=
  [ ⟨"system", Template.lit systemText⟩,
    ⟨"human", Template.textVar⟩ ]

/-- Substituting the input text into one content template. -/
def renderTemplate (input : String) : Template → String
  | Template.lit s => s
  | Template.textVar => input

/-- Formatting the prompt template on an input: every message keeps its
role and has its content rendered with the input substituted for the
placeholder. -/
def formatPrompt (p : List Message) (input : String) : List (String × String) :=
  p.map (fun m => (m.role, renderTemplate input m.content))

/-- A chain `prompt | llm.with_structured_output(schema)`: the prompt it
was built from and the schema bound into it at construction. -/
structure Chain where
  prompt : List Message
  schema : Schema
deriving Repr, DecidableEq

/-- The chain of line 60, built while `Person` is the three-field
schema. -/
def chain1 : Chain := ⟨prompt, Schema.person personFieldsV1⟩

/-- The chain of line 110, built from the same prompt and the `Data`
schema over the redefined four-field `Person`. -/
def chain2 : Chain := ⟨prompt, Schema.data personFieldsV2⟩

/-- The first sample input (line 62). -/
def comment1 : String :=
  "I absolutely love this product! It\x27s been a game-changer for my daily routine. The quality is top-notch and the customer service is outstanding. I\x27ve recommended it to all my friends and family. - Riyadh, Bangladesh"

/-- The second sample input (line 112). -/
def comment2 : String :=
  "I\x27m so impressed with this product! It has truly transformed how I approach my daily tasks. The quality exceeds my expectations, and the customer support is truly exceptional. I\x27ve already suggested it to all my colleagues and relatives. - Emily Clarke, Canada"

/-- The third sample input (lines 126-128), a triple-quoted string with
its leading and trailing newline. -/
def textInput : String :=
  "\nRiyadh   riyadhgenai@gmail.com from Bangladesh recently reviewed a book she loved. Meanwhile, Bob Smith from the USA shared his insights on the same book in a different review. Both reviews were very insightful.\n"

/-- The separator the script prints between sections. -/
def sep : String := "\n----------\n"

/-- One top-level step of the script, in source order. -/
inductive Step where
  | loadDotenv
  | readEnvKey (k : String)
  | constructClient (model : String) (temperature : Int)
  | invoke (c : Chain) (input : String)
  | printLine (s : String)
  | printResponse
deriving Repr

/-- The script, line by line: load the dotenv file, read the credential
(line 4, `os.environ["GROQ_API_KEY"]`), construct the client (lines
8-11), then three invoke-and-print blocks (lines 62-73, 110-123,
126-141). -/
def script : List Step :=
  [ Step.loadDotenv,
    Step.readEnvKey "GROQ_API_KEY",
    Step.constructClient "llama-3.1-8b-instant" 0,
    Step.invoke chain1 comment1,
    Step.printLine sep,
    Step.printLine "Key data extraction:",
    Step.printLine sep,
    Step.printResponse,
    Step.printLine sep,
    Step.invoke chain2 comment2,
    Step.printLine sep,
    Step.printLine "Key data extraction of a list of entities:",
    Step.printLine sep,
    Step.printResponse,
    Step.printLine sep,
    Step.invoke chain2 textInput,
    Step.printLine sep,
    Step.printLine "Key data extraction of a review with several users:",
    Step.printLine sep,
    Step.printResponse,
    Step.printLine sep ]

/-- The process environment: a partial map from variable names to
values. -/
def Env : Type := String → Option String

/-- The external backend: given the chain (prompt and schema descriptor)
and the input text, the raw payload it returns for that network call. -/
def Backend : Type := Chain → String → JValue

/-- The errors the script can halt with.  `keyError` is the
configuration error raised by `os.environ[...]` on a missing variable;
`backendError` stands for a failure of the network exchange itself;
`validationError` is a schema-validation failure of a response. -/
inductive ProgError where
  | keyError (k : String)
  | backendError (msg : String)
  | validationError (msg : String)
deriving Repr, DecidableEq

/-- What a print statement emits: a literal line, or the rendering of a
parsed response object. -/
inductive PrintOut where
  | literal (s : String)
  | response (p : Parsed)
deriving Repr, DecidableEq

/-- An observable effect of running the script. -/
inductive Effect where
  | envRead (k : String)
  | clientConstructed (model : String) (temperature : Int)
  | networkCall (c : Chain) (input : String)
  | printed (o : PrintOut)
deriving Repr, DecidableEq

/-- Interpreting the script steps against an environment and a backend.
Effects are accumulated in reverse; the run halts at the first missing
environment variable or failed response validation, returning the
effects performed so far together with the error. -/
def runSteps (env : Env) (backend : Backend) :
    List Step → Option Parsed → List Effect → List Effect × Option ProgError
  | [], _, acc => (acc.reverse, none)
  | Step.loadDotenv :: rest, last, acc => runSteps env backend rest last acc
  | Step.readEnvKey k :: rest, last, acc =>
    match env k with
    | none => (acc.reverse, some (ProgError.keyError k))
    | some _ => runSteps env backend rest last (Effect.envRead k :: acc)
  | Step.constructClient m t :: rest, last, acc =>
    runSteps env backend rest last (Effect.clientConstructed m t :: acc)
  | Step.invoke c input :: rest, _, acc =>
    match validateSchema c.schema (backend c input) with
    | Except.error e =>
      ((Effect.networkCall c input :: acc).reverse,
        some (ProgError.validationError e))
    | Except.ok p =>
      runSteps env backend rest (some p) (Effect.networkCall c input :: acc)
  | Step.printLine s :: rest, last, acc =>
    runSteps env backend rest last (Effect.printed (PrintOut.literal s) :: acc)
  | Step.printResponse :: rest, last, acc =>
    match last with
    | none => (acc.reverse, some (ProgError.validationError "no response"))
    | some p =>
      runSteps env backend rest (some p)
        (Effect.printed (PrintOut.response p) :: acc)

/-- Running the whole script. -/
def runProgram (env : Env) (backend : Backend) :
    List Effect × Option ProgError :=
  runSteps env backend script none []

/-- The network calls among a list of effects, with the chain and input
of each. -/
def networkCalls (es : List Effect) : List (Chain × String) :=
  es.filterMap (fun e =>
    match e with
    | Effect.networkCall c input => some (c, input)
    | _ => none)

/-- The printed responses among a list of effects. -/
def printedResponses (es : List Effect) : List Parsed :=
  es.filterMap (fun e =>
    match e with
    | Effect.printed (PrintOut.response p) => some p
    | _ => none)

/-- A payload value a text field can absorb: a string or an explicit
null. -/
def JValue.textLike : JValue → Bool
  | JValue.jnull => true
  | JValue.jstr _ => true
  | _ => false

/-- The chain and input of an invoke step, if the step is one. -/
def stepInvoke : Step → Option (Chain × String)
  | Step.invoke c input => some (c, input)
  | _ => none

theorem validateRecord_keys (schema : List FieldDecl)
    (kvs : List (String × JValue)) (r : List (String × Option String))
    (h : validateRecord schema kvs = Except.ok r) :
    r.map Prod.fst = schema.map FieldDecl.name := by
  induction schema generalizing r with
  | nil =>
    simp only [validateRecord] at h
    cases h
    simp
  | cons f rest ih =>
    cases hv : validateOptionalText kvs f.name with
    | error e =>
      simp only [validateRecord, hv] at h
      cases h
    | ok v =>
      cases hr : validateRecord rest kvs with
      | error e =>
        simp only [validateRecord, hv, hr] at h
        cases h
      | ok r' =>
        simp only [validateRecord, hv, hr] at h
        cases h
        simp [ih r' hr]

theorem validateRecord_default (schema : List FieldDecl) (f : FieldDecl)
    (kvs : List (String × JValue)) (r : List (String × Option String))
    (hf : f ∈ schema) (hl : lookupField kvs f.name = none)
    (h : validateRecord schema kvs = Except.ok r) :
    (f.name, none) ∈ r := by
  induction schema generalizing r with
  | nil => cases hf
  | cons g rest ih =>
    cases hv : validateOptionalText kvs g.name with
    | error e =>
      simp only [validateRecord, hv] at h
      cases h
    | ok v =>
      cases hr : validateRecord rest kvs with
      | error e =>
        simp only [validateRecord, hv, hr] at h
        cases h
      | ok r' =>
        simp only [validateRecord, hv, hr] at h
        cases h
        rcases List.mem_cons.mp hf with hfg | hmem
        · subst hfg
          have : validateOptionalText kvs f.name = Except.ok none := by
            simp [validateOptionalText, hl]
          rw [this] at hv
          cases hv
          exact List.mem_cons_self _ _
        · exact List.mem_cons_of_mem _ (ih r' hmem hr)

theorem validateRecord_field_error (schema : List FieldDecl) (f : FieldDecl)
    (kvs : List (String × JValue)) (e : String)
    (hf : f ∈ schema) (hv : validateOptionalText kvs f.name = Except.error e) :
    ∃ e', validateRecord schema kvs = Except.error e' := by
  induction schema with
  | nil => cases hf
  | cons g rest ih =>
    cases hg : validateOptionalText kvs g.name with
    | error e2 => exact ⟨e2, by simp [validateRecord, hg]⟩
    | ok v =>
      rcases List.mem_cons.mp hf with hfg | hmem
      · subst hfg
        rw [hg] at hv
        cases hv
      · rcases ih hmem with ⟨e', he'⟩
        exact ⟨e', by simp [validateRecord, hg, he']⟩

theorem validateOptionalText_textLike (kvs : List (String × JValue))
    (k : String) (hk : ∀ p ∈ kvs, p.2.textLike = true) :
    ∃ v, validateOptionalText kvs k = Except.ok v := by
  cases hl : lookupField kvs k with
  | none => exact ⟨none, by simp [validateOptionalText, hl]⟩
  | some v =>
    have hmem : ∃ p ∈ kvs, p.2 = v := by
      unfold lookupField at hl
      cases hf : kvs.find? (fun p => p.1 = k) with
      | none => rw [hf] at hl; cases hl
      | some p =>
        rw [hf] at hl
        cases hl
        exact ⟨p, List.mem_of_find?_eq_some hf, rfl⟩
    rcases hmem with ⟨p, hp, hpv⟩
    have htl : v.textLike = true := hpv ▸ hk p hp
    cases v with
    | jnull => exact ⟨none, by simp [validateOptionalText, hl]⟩
    | jstr s => exact ⟨some s, by simp [validateOptionalText, hl]⟩
    | jbool b => simp [JValue.textLike] at htl
    | jnum n => simp [JValue.textLike] at htl
    | jarr xs => simp [JValue.textLike] at htl
    | jobj o => simp [JValue.textLike] at htl

theorem validateRecord_textLike (schema : List FieldDecl)
    (kvs : List (String × JValue)) (hk : ∀ p ∈ kvs, p.2.textLike = true) :
    ∃ r, validateRecord schema kvs = Except.ok r := by
  induction schema with
  | nil => exact ⟨[], rfl⟩
  | cons f rest ih =>
    rcases validateOptionalText_textLike kvs f.name hk with ⟨v, hv⟩
    rcases ih with ⟨r, hr⟩
    exact ⟨(f.name, v) :: r, by simp [validateRecord, hv, hr]⟩

/-- C1 (counterexample): no declaration of the `Person` schema has the
field-name list `name, lastname, country, email`: the first declaration
has only three fields, and in the redefinition the email field is named
`Email` (capital E), so `email` is not among its field names. -/
theorem person_schema_counterexample :
    personFieldsV1.map FieldDecl.name ≠ ["name", "lastname", "country", "email"]
  ∧ personFieldsV2.map FieldDecl.name ≠ ["name", "lastname", "country", "email"]
  ∧ "email" ∉ personFieldsV2.map FieldDecl.name := by
  refine ⟨by decide, by decide, by decide⟩

/-- C1 (amended): the `Person` schema is declared twice.  The first
declaration has exactly the three optional text fields `name`,
`lastname`, `country`; the redefinition has exactly the four optional
text fields `name`, `lastname`, `country`, `Email` (capital E).  Every
field is optional with an absent default, so any payload whose values
are all strings or nulls — in particular one omitting any subset of the
declared fields — validates successfully. -/
theorem person_schema_fields_amended :
    personFieldsV1.map FieldDecl.name = ["name", "lastname", "country"]
  ∧ personFieldsV2.map FieldDecl.name = ["name", "lastname", "country", "Email"]
  ∧ (∀ f ∈ personFieldsV1, f.optional = true ∧ f.ftype = FType.text)
  ∧ (∀ f ∈ personFieldsV2, f.optional = true ∧ f.ftype = FType.text)
  ∧ (∀ kvs : List (String × JValue), (∀ p ∈ kvs, p.2.textLike = true) →
      ∃ r, validateRecord personFieldsV2 kvs = Except.ok r) := by
  refine ⟨by decide, by decide, by decide, by decide, ?_⟩
  intro kvs hk
  exact validateRecord_textLike personFieldsV2 kvs hk

/-- C2: the first invocation runs the chain built at line 60, whose bound
schema is the three-field `Person` (no email field of either spelling);
the second and third invocations run the chain built at line 110, whose
person schema carries the field `Email` (capital E).  Any record the
first chain's schema validation accepts has exactly the keys `name`,
`lastname`, `country`, so it can never contain an `email` or `Email`
value, whatever the input payload. -/
theorem first_invocation_never_yields_email :
    script.filterMap stepInvoke =
      [(chain1, comment1), (chain2, comment2), (chain2, textInput)]
  ∧ chain1.schema = Schema.person personFieldsV1
  ∧ chain2.schema = Schema.data personFieldsV2
  ∧ "Email" ∈ personFieldsV2.map FieldDecl.name
  ∧ "email" ∉ personFieldsV1.map FieldDecl.name
  ∧ "Email" ∉ personFieldsV1.map FieldDecl.name
  ∧ (∀ (v : JValue) (r : List (String × Option String)),
      validateSchema chain1.schema v = Except.ok (Parsed.one r) →
      ∀ p ∈ r, p.1 ≠ "email" ∧ p.1 ≠ "Email") := by
  refine ⟨rfl, rfl, rfl, by decide, by decide, by decide, ?_⟩
  intro v r h p hp
  cases v with
  | jobj kvs =>
    cases hv : validateRecord personFieldsV1 kvs with
    | error e =>
      simp only [validateSchema, chain1, hv] at h
      cases h
    | ok r2 =>
      simp only [validateSchema, chain1, hv, Except.ok.injEq,
        Parsed.one.injEq] at h
      subst h
      have hkeys := validateRecord_keys personFieldsV1 kvs r2 hv
      have hp1 : p.1 ∈ r2.map Prod.fst := List.mem_map.mpr ⟨p, hp, rfl⟩
      rw [hkeys] at hp1
      simp only [personFieldsV1, List.map, List.mem_cons, List.not_mem_nil,
        or_false] at hp1
      rcases hp1 with h1 | h1 | h1 <;> rw [h1] <;> exact ⟨by decide, by decide⟩
  | jnull => simp [validateSchema, chain1] at h
  | jbool b => simp [validateSchema, chain1] at h
  | jnum n => simp [validateSchema, chain1] at h
  | jstr s => simp [validateSchema, chain1] at h
  | jarr xs => simp [validateSchema, chain1] at h

/-- C3: when GROQ_API_KEY is absent from the environment, the run halts
at the `os.environ` read with the configuration error
`keyError "GROQ_API_KEY"` — a constructor distinct from every backend
error — having performed no effect at all: in particular no client
construction and no network call precede it. -/
theorem missing_key_halts_before_any_call (env : Env) (backend : Backend)
    (h : env "GROQ_API_KEY" = none) :
    runProgram env backend = ([], some (ProgError.keyError "GROQ_API_KEY"))
  ∧ networkCalls (runProgram env backend).1 = []
  ∧ (∀ msg, ProgError.keyError "GROQ_API_KEY" ≠ ProgError.backendError msg) := by
  have hrun : runProgram env backend =
      ([], some (ProgError.keyError "GROQ_API_KEY")) := by
    simp [runProgram, script, runSteps, h]
  refine ⟨hrun, by rw [hrun]; rfl, fun msg hc => by cases hc⟩

/-- Witness for C3: the empty environment with a trivial backend. -/
theorem missing_key_halts_before_any_call_witness :
    runProgram (fun _ => none) (fun _ _ => JValue.jnull) =
      ([], some (ProgError.keyError "GROQ_API_KEY"))
  ∧ networkCalls (runProgram (fun _ => none) (fun _ _ => JValue.jnull)).1 = []
  ∧ (∀ msg, ProgError.keyError "GROQ_API_KEY" ≠ ProgError.backendError msg) :=
  missing_key_halts_before_any_call (fun _ => none) (fun _ _ => JValue.jnull) rfl

/-- C4: the all-absent `Person` record is a valid, constructible value:
the empty payload validates successfully against both `Person` schemas,
with every declared field defaulting to absent, and is an `ok` result of
the extractor's schema validation, never an error. -/
theorem all_absent_person_valid :
    validateRecord personFieldsV2 [] = Except.ok
      [("name", none), ("lastname", none), ("country", none), ("Email", none)]
  ∧ validateSchema (Schema.person personFieldsV2) (JValue.jobj []) = Except.ok
      (Parsed.one [("name", none), ("lastname", none), ("country", none),
        ("Email", none)])
  ∧ validateSchema (Schema.person personFieldsV1) (JValue.jobj []) = Except.ok
      (Parsed.one [("name", none), ("lastname", none), ("country", none)]) :=
  ⟨rfl, rfl, rfl⟩

/-- C5: formatting the prompt on any input yields exactly two messages —
the fixed system instruction and a human message holding the input text
verbatim — and both chains were built from this same prompt template. -/
theorem prompt_is_fixed_two_messages (input : String) :
    formatPrompt prompt input = [("system", systemText), ("human", input)]
  ∧ prompt.length = 2
  ∧ chain1.prompt = prompt
  ∧ chain2.prompt = prompt :=
  ⟨rfl, rfl, rfl, rfl⟩

/-- C6: validation of any payload against either declared `Person`
schema (1) yields exactly the declared field names, so undeclared
payload keys are dropped; (2) maps every declared field missing from the
payload to the absent value; and (3) fails with a validation error
whenever the payload binds any declared field to any value that cannot
be coerced to the declared text type (anything other than a string or an
explicit null). -/
theorem validation_semantics (schema : List FieldDecl)
    (kvs : List (String × JValue))
    (_hs : schema = personFieldsV1 ∨ schema = personFieldsV2) :
    (∀ r, validateRecord schema kvs = Except.ok r →
      r.map Prod.fst = schema.map FieldDecl.name)
  ∧ (∀ f ∈ schema, lookupField kvs f.name = none →
      ∀ r, validateRecord schema kvs = Except.ok r → (f.name, none) ∈ r)
  ∧ (∀ f ∈ schema, ∀ v : JValue, lookupField kvs f.name = some v →
      v.textLike = false →
      ∃ e, validateRecord schema kvs = Except.error e) := by
  refine ⟨?_, ?_, ?_⟩
  · intro r h
    exact validateRecord_keys schema kvs r h
  · intro f hf hl r h
    exact validateRecord_default schema f kvs r hf hl h
  · intro f hf v hl htl
    have hv : validateOptionalText kvs f.name =
        Except.error ("Input should be a valid string: " ++ f.name) := by
      cases v with
      | jnull => simp [JValue.textLike] at htl
      | jstr s => simp [JValue.textLike] at htl
      | jbool b => simp [validateOptionalText, hl]
      | jnum n => simp [validateOptionalText, hl]
      | jarr xs => simp [validateOptionalText, hl]
      | jobj o => simp [validateOptionalText, hl]
    exact validateRecord_field_error schema f kvs _ hf hv

/-- Witness for C6 at the four-field schema and a payload binding the
declared field `country` to a boolean. -/
theorem validation_semantics_witness :
    (∀ r, validateRecord personFieldsV2 [("country", JValue.jbool true)] =
        Except.ok r →
      r.map Prod.fst = personFieldsV2.map FieldDecl.name)
  ∧ (∀ f ∈ personFieldsV2,
      lookupField [("country", JValue.jbool true)] f.name = none →
      ∀ r, validateRecord personFieldsV2 [("country", JValue.jbool true)] =
        Except.ok r → (f.name, none) ∈ r)
  ∧ (∀ f ∈ personFieldsV2, ∀ v : JValue,
      lookupField [("country", JValue.jbool true)] f.name = some v →
      v.textLike = false →
      ∃ e, validateRecord personFieldsV2 [("country", JValue.jbool true)] =
        Except.error e) :=
  validation_semantics personFieldsV2 [("country", JValue.jbool true)]
    (Or.inr rfl)

/-- C9: under an environment holding the credential and a backend whose
three responses validate, the run performs exactly three network calls,
in order: the single-entity chain on the first comment, then the
list-of-entities chain on the second comment, then the same chain on the
multi-person free text; each call's parsed response is printed, in the
same order, and the run completes without error. -/
theorem program_three_invocations (env : Env) (backend : Backend)
    (key : String) (p1 p2 p3 : Parsed)
    (hk : env "GROQ_API_KEY" = some key)
    (h1 : validateSchema chain1.schema (backend chain1 comment1) = Except.ok p1)
    (h2 : validateSchema chain2.schema (backend chain2 comment2) = Except.ok p2)
    (h3 : validateSchema chain2.schema (backend chain2 textInput) = Except.ok p3) :
    networkCalls (runProgram env backend).1 =
      [(chain1, comment1), (chain2, comment2), (chain2, textInput)]
  ∧ printedResponses (runProgram env backend).1 = [p1, p2, p3]
  ∧ (runProgram env backend).2 = none := by
  have hrun : runProgram env backend =
      ([Effect.envRead "GROQ_API_KEY",
        Effect.clientConstructed "llama-3.1-8b-instant" 0,
        Effect.networkCall chain1 comment1,
        Effect.printed (PrintOut.literal sep),
        Effect.printed (PrintOut.literal "Key data extraction:"),
        Effect.printed (PrintOut.literal sep),
        Effect.printed (PrintOut.response p1),
        Effect.printed (PrintOut.literal sep),
        Effect.networkCall chain2 comment2,
        Effect.printed (PrintOut.literal sep),
        Effect.printed (PrintOut.literal "Key data extraction of a list of entities:"),
        Effect.printed (PrintOut.literal sep),
        Effect.printed (PrintOut.response p2),
        Effect.printed (PrintOut.literal sep),
        Effect.networkCall chain2 textInput,
        Effect.printed (PrintOut.literal sep),
        Effect.printed (PrintOut.literal "Key data extraction of a review with several users:"),
        Effect.printed (PrintOut.literal sep),
        Effect.printed (PrintOut.response p3),
        Effect.printed (PrintOut.literal sep)], none) := by
    simp [runProgram, script, runSteps, hk, h1, h2, h3]
  rw [hrun]
  exact ⟨rfl, rfl, rfl⟩

/-- Witness for C9: a total environment and a backend answering the
single-record chain with an empty object and the collection chain with
an empty people list. -/
theorem program_three_invocations_witness :
    networkCalls (runProgram (fun _ => some "gsk-demo")
        (fun c _ =>
          match c.schema with
          | Schema.person _ => JValue.jobj []
          | Schema.data _ => JValue.jobj [("people", JValue.jarr [])])).1 =
      [(chain1, comment1), (chain2, comment2), (chain2, textInput)]
  ∧ printedResponses (runProgram (fun _ => some "gsk-demo")
        (fun c _ =>
          match c.schema with
          | Schema.person _ => JValue.jobj []
          | Schema.data _ => JValue.jobj [("people", JValue.jarr [])])).1 =
      [Parsed.one [("name", none), ("lastname", none), ("country", none)],
        Parsed.many [], Parsed.many []]
  ∧ (runProgram (fun _ => some "gsk-demo")
        (fun c _ =>
          match c.schema with
          | Schema.person _ => JValue.jobj []
          | Schema.data _ => JValue.jobj [("people", JValue.jarr [])])).2 = none :=
  program_three_invocations (fun _ => some "gsk-demo")
    (fun c _ =>
      match c.schema with
      | Schema.person _ => JValue.jobj []
      | Schema.data _ => JValue.jobj [("people", JValue.jarr [])])
    "gsk-demo"
    (Parsed.one [("name", none), ("lastname", none), ("country", none)])
    (Parsed.many []) (Parsed.many []) rfl rfl rfl rfl

/-- C10: the `people` field of the `Data` schema is required: any object
payload lacking the `people` key fails validation with a field-required
error rather than defaulting to an empty collection, even though the
empty payload validates against the contained `Person` schema with every
field absent. -/
theorem data_people_field_required (kvs : List (String × JValue))
    (h : lookupField kvs "people" = none) :
    validateSchema (Schema.data personFieldsV2) (JValue.jobj kvs) =
      Except.error "Field required: people"
  ∧ (∀ p, validateSchema (Schema.data personFieldsV2) (JValue.jobj kvs) ≠
      Except.ok p)
  ∧ validateRecord personFieldsV2 [] = Except.ok
      [("name", none), ("lastname", none), ("country", none), ("Email", none)] := by
  have he : validateSchema (Schema.data personFieldsV2) (JValue.jobj kvs) =
      Except.error "Field required: people" := by
    simp [validateSchema, h]
  refine ⟨he, ?_, rfl⟩
  intro p hp
  rw [he] at hp
  cases hp

/-- Witness for C10: the empty object payload has no `people` key. -/
theorem data_people_field_required_witness :
    validateSchema (Schema.data personFieldsV2) (JValue.jobj []) =
      Except.error "Field required: people"
  ∧ (∀ p, validateSchema (Schema.data personFieldsV2) (JValue.jobj []) ≠
      Except.ok p)
  ∧ validateRecord personFieldsV2 [] = Except.ok
      [("name", none), ("lastname", none), ("country", none), ("Email", none)] :=
  data_people_field_required [] rfl

end KeyData
